import Mathlib

/-!
# Verification of the home-dash calendar/weather proxy server

Shallow embedding of the core logic of `src/server.ts` (the live server) and
`src/server-backup.ts` (the backup variant), and proofs about the claims of
the specification.

Modelling conventions:
* JS strings are Lean `String`s; `String.substring`-style slicing is done on
  the character list (`toList`), which agrees with JS code-unit slicing for
  the ASCII data handled here.
* `Date.now()` is a parameter `now : Nat`; "today's date string"
  (`new Date().toISOString().split("T")[0]`) is a parameter `today : String`.
* `new Date(...)` parsing of the canonical ICS tokens (`YYYYMMDD`,
  `YYYYMMDDTHHMMSS`, optionally `Z`-suffixed) is modelled by an
  `Option Int` epoch-milliseconds value; `none` models an Invalid Date,
  whose `NaN` arithmetic makes every comparison false in the JS code.
  Fixed-offset time is assumed (offsets cancel in differences of
  like-kinded tokens, which is the only use the code makes of instants).
* Network fetches are parameters of type `Except String α` (outcome of the
  fetch); the in-memory `Set`s are duplicate-free `List String`s with
  idempotent insertion, matching JS `Set.add`.
-/

namespace HomeDash

/-- Split a character list on a separator character; like JS
`String.prototype.split` with a one-character separator. -/
def splitOnChar (sep : Char) : List Char → List (List Char)
  | [] => [[]]
  | c :: cs =>
    if c = sep then [] :: splitOnChar sep cs
    else
      match splitOnChar sep cs with
      | [] => [[c]]
      | h :: t => (c :: h) :: t

/-- Does `pat` occur as a contiguous run in `cs`? (JS `includes`.) -/
def occursIn (pat : List Char) : List Char → Bool
  | [] => pat.isPrefixOf []
  | c :: cs => pat.isPrefixOf (c :: cs) || occursIn pat cs

/-- JS `s.includes(pat)`. -/
def containsStr (s pat : String) : Bool := occursIn pat.toList s.toList

/-- JS `s.trim()` (ASCII whitespace suffices for the data handled here). -/
def jsTrim (s : String) : String :=
  String.mk (((s.toList.dropWhile Char.isWhitespace).reverse.dropWhile
    Char.isWhitespace).reverse)

/-- JS `s.split("\n")`. -/
def jsSplitLines (s : String) : List String :=
  (splitOnChar '\n' s.toList).map String.mk

/-- JS `s.split(":")`. -/
def jsSplitColon (s : String) : List String :=
  (splitOnChar ':' s.toList).map String.mk

/-- JS `parts.join(":")`. -/
def joinColon : List String → String
  | [] => ""
  | [x] => x
  | x :: xs => x ++ ":" ++ joinColon xs

/-- Numeric value of a decimal digit character. -/
def digitVal (c : Char) : Nat := c.toNat - 48

/-- Natural number denoted by a list of decimal digit characters. -/
def natOfDigits (cs : List Char) : Nat := cs.foldl (fun a c => a * 10 + digitVal c) 0

/-- Days from 1970-01-01 to the civil date y-m-d (proleptic Gregorian), the
day-count arithmetic underlying ECMAScript `Date`. -/
def daysFromCivil (y m d : Int) : Int :=
  let y' := y - (if m ≤ 2 then 1 else 0)
  let era := (if y' ≥ 0 then y' else y' - 399) / 400
  let yoe := y' - era * 400
  let doy := (153 * (m + (if m > 2 then -3 else 9)) + 2) / 5 + d - 1
  let doe := yoe * 365 + yoe / 4 - yoe / 100 + doy
  era * 146097 + doe - 719468

/-- Epoch milliseconds of the date given by four year, two month and two day
digit characters (midnight). -/
def dateDigitsMs (y1 y2 y3 y4 mo1 mo2 d1 d2 : Char) : Int :=
  daysFromCivil (natOfDigits [y1, y2, y3, y4]) (natOfDigits [mo1, mo2])
    (natOfDigits [d1, d2]) * 86400000

/-- Milliseconds past midnight given by six time digit characters. -/
def timeDigitsMs (h1 h2 mi1 mi2 s1 s2 : Char) : Int :=
  (natOfDigits [h1, h2] * 3600000 + natOfDigits [mi1, mi2] * 60000
    + natOfDigits [s1, s2] * 1000 : Int)

/-- Is this a decimal digit? -/
def isDig (c : Char) : Bool := c.isDigit

/-- Model of `new Date(start.replace(/(\d{4})(\d{2})(\d{2})T(\d{2})(\d{2})(\d{2})/,
"$1-$2-$3T$4:$5:$6")).getTime()` as used by `server.ts`: only the canonical
timed tokens `YYYYMMDDTHHMMSS` (optionally `Z`-suffixed) produce a valid
instant; everything else is an Invalid Date (`none`, modelling `NaN`). -/
def jsParseServer (s : String) : Option Int :=
  match s.toList with
  | [y1, y2, y3, y4, mo1, mo2, d1, d2, 'T', h1, h2, mi1, mi2, s1, s2] =>
    if [y1, y2, y3, y4, mo1, mo2, d1, d2, h1, h2, mi1, mi2, s1, s2].all isDig then
      some (dateDigitsMs y1 y2 y3 y4 mo1 mo2 d1 d2 + timeDigitsMs h1 h2 mi1 mi2 s1 s2)
    else none
  | [y1, y2, y3, y4, mo1, mo2, d1, d2, 'T', h1, h2, mi1, mi2, s1, s2, 'Z'] =>
    if [y1, y2, y3, y4, mo1, mo2, d1, d2, h1, h2, mi1, mi2, s1, s2].all isDig then
      some (dateDigitsMs y1 y2 y3 y4 mo1 mo2 d1 d2 + timeDigitsMs h1 h2 mi1 mi2 s1 s2)
    else none
  | _ => none

/-- Model of the token parsing in `server-backup.ts`'s `calculateDuration`,
which additionally handles the date-only token `YYYYMMDD` (via the second
regex replace producing `YYYY-MM-DD`). -/
def jsParseBackup (s : String) : Option Int :=
  match s.toList with
  | [y1, y2, y3, y4, mo1, mo2, d1, d2] =>
    if [y1, y2, y3, y4, mo1, mo2, d1, d2].all isDig then
      some (dateDigitsMs y1 y2 y3 y4 mo1 mo2 d1 d2)
    else none
  | _ => jsParseServer s

/-- `Math.round (a / b)` for an integer `a` and positive integer `b`:
`floor (a / b + 1 / 2)`, which is `Math.round`'s round-half-up. -/
def jsRoundDiv (a b : Int) : Int := Int.fdiv (2 * a + b) (2 * b)

/-- JS `s.substring(a, b)` (with `a ≤ b ≤ s.length` clamping), on the
character list. -/
def jsSubstring (cs : List Char) (a b : Nat) : List Char := (cs.take b).drop a

/-- The `YYYY-MM-DD` assembly of `formatICSDate`: `substring(0,4)`,
`substring(4,6)`, `substring(6,8)` joined with dashes. -/
def dashDate (cs : List Char) : String :=
  String.mk (jsSubstring cs 0 4) ++ "-" ++ String.mk (jsSubstring cs 4 6)
    ++ "-" ++ String.mk (jsSubstring cs 6 8)

/-- `formatICSDate` (identical in `server.ts` and `server-backup.ts`):
length-8 tokens and the part before `T` of `T`-containing tokens are sliced
positionally into `YYYY-MM-DD`; otherwise today's date is returned.
`today` stands for `new Date().toISOString().split("T")[0]`. -/
def formatICSDate (icsDate : String) (today : String) : String :=
  if icsDate = "" then today
  else if icsDate.toList.length = 8 then dashDate icsDate.toList
  else if icsDate.toList.contains 'T' then
    dashDate (icsDate.toList.takeWhile (fun c => c ≠ 'T'))
  else today

/-- JS `s.split("T")[1]`: the segment between the first and second `T`
(empty if there is no first `T` segment boundary). -/
def splitTSecond (cs : List Char) : List Char :=
  ((cs.dropWhile (fun c => c ≠ 'T')).drop 1).takeWhile (fun c => c ≠ 'T')

/-- model of `new Date(s)` for the dash date strings `YYYY-MM-DD` stored in
an event's `date` field (comparator of the aggregator's sort): valid dash
dates give their epoch milliseconds, anything else an Invalid Date. -/
def jsParseDashDate (s : String) : Option Int :=
  match s.toList with
  | [y1, y2, y3, y4, '-', mo1, mo2, '-', d1, d2] =>
    if [y1, y2, y3, y4, mo1, mo2, d1, d2].all isDig then
      some (dateDigitsMs y1 y2 y3 y4 mo1 mo2 d1 d2)
    else none
  | _ => none

/-- Raw accumulator of a `VEVENT` block (`currentEvent` in the source);
absent JS fields are the empty string, which is observationally equivalent
(all uses are truthiness tests and `|| ""` defaults). `dtstartType` is only
written by the backup parser. -/
structure RawEvent where
  summary : String
  dtstart : String
  dtend : String
  description : String
  location : String
  uid : String
  dtstartType : String
deriving Repr, DecidableEq

/-- The fresh accumulator created on `BEGIN:VEVENT`. -/
def RawEvent.empty : RawEvent := ⟨"", "", "", "", "", "", ""⟩

namespace Server

/-- A normalized calendar event as produced by `server.ts`'s
`parseICSData`. -/
structure CalendarEvent where
  id : String
  title : String
  date : String
  time : String
  duration : String
  description : String
  location : String
  priority : String
  source : String
deriving Repr, DecidableEq

/-- `formatICSTime` of `server.ts`: `HH:MM` from the time segment of a
`T`-containing token, `"00:00"` otherwise. -/
def formatICSTime (icsDate : String) : String :=
  if icsDate = "" ∨ ¬ icsDate.toList.contains 'T' then "00:00"
  else
    let timePart := splitTSecond icsDate.toList
    if timePart ≠ [] ∧ 4 ≤ timePart.length then
      String.mk (jsSubstring timePart 0 2) ++ ":" ++ String.mk (jsSubstring timePart 2 4)
    else "00:00"

/-- `calculateDuration` of `server.ts`: hours-only bucketing. A `none`
parse models an Invalid Date, whose `NaN` makes `diffHours > 0` false,
falling through to `"1 hour"` exactly as the JS code does. -/
def calculateDuration (start_ end_ : String) : String :=
  if start_ = "" ∨ end_ = "" then "1 hour"
  else
    match jsParseServer start_, jsParseServer end_ with
    | some s, some e =>
      let diffHours := jsRoundDiv (e - s) 3600000
      if diffHours > 0 then
        toString diffHours ++ " hour" ++ (if diffHours ≠ 1 then "s" else "")
      else "1 hour"
    | _, _ => "1 hour"

/-- The property-line switch of `server.ts`'s `parseICSData`. -/
def applyProp (ev : RawEvent) (line : String) : RawEvent :=
  match jsSplitColon line with
  | [] => ev
  | key :: valueParts =>
    let value := joinColon valueParts
    if key = "SUMMARY" then { ev with summary := value }
    else if key = "DTSTART" ∨ key = "DTSTART;VALUE=DATE" then { ev with dtstart := value }
    else if key = "DTEND" ∨ key = "DTEND;VALUE=DATE" then { ev with dtend := value }
    else if key = "DESCRIPTION" then { ev with description := value }
    else if key = "LOCATION" then { ev with location := value }
    else if key = "UID" then { ev with uid := value }
    else ev

/-- The event record pushed on `END:VEVENT` (`server.ts`). The fallback id
is `Date.now().toString()`, i.e. `toString now`. -/
def mkEvent (ev : RawEvent) (sourceName : String) (now : Nat) (today : String) : CalendarEvent :=
  { id := if ev.uid = "" then toString now else ev.uid
    title := ev.summary
    date := formatICSDate ev.dtstart today
    time := formatICSTime ev.dtstart
    duration := calculateDuration ev.dtstart ev.dtend
    description := ev.description
    location := ev.location
    priority := "medium"
    source := sourceName }

/-- The guard of `END:VEVENT`: an event is pushed iff summary and dtstart
are truthy (non-empty). -/
def emitEvent (ev : RawEvent) (sourceName : String) (now : Nat) (today : String) :
    List CalendarEvent :=
  if ev.summary ≠ "" ∧ ev.dtstart ≠ "" then [mkEvent ev sourceName now today] else []

/-- The line loop of `server.ts`'s `parseICSData`. -/
def parseLoop (sourceName : String) (now : Nat) (today : String) :
    List String → Option RawEvent → List CalendarEvent
  | [], _ => []
  | line :: rest, cur =>
    let t := jsTrim line
    if t = "BEGIN:VEVENT" then parseLoop sourceName now today rest (some RawEvent.empty)
    else
      match cur with
      | some ev =>
        if t = "END:VEVENT" then
          emitEvent ev sourceName now today ++ parseLoop sourceName now today rest none
        else if t.toList.contains ':' then
          parseLoop sourceName now today rest (some (applyProp ev t))
        else parseLoop sourceName now today rest (some ev)
      | none => parseLoop sourceName now today rest none

/-- `parseICSData` of `server.ts`. -/
def parseICSData (icsData : String) (sourceName : String) (now : Nat) (today : String) :
    List CalendarEvent :=
  parseLoop sourceName now today (jsSplitLines icsData) none

end Server

/-- The JS `Set<string>` of completed / dismissed event ids, as a
duplicate-free list; `Set.add` is idempotent insertion. -/
def insertSet (s : List String) (x : String) : List String :=
  if s.contains x then s else s ++ [x]

/-- Response of `handleEventAction`, with the JSON fields the handler can
emit (absent fields are `none`). -/
structure ActionResponse where
  status : Nat
  success : Bool
  error : Option String
  eventId : Option String
  action : Option String
  message : Option String
deriving Repr, DecidableEq

/-- `handleEventAction` (identical in both servers): the request body is
`none` when `req.json()` throws, otherwise the `eventId` / `action` fields
(JS `undefined` is `none`; `!x` is true for `undefined` and `""` alike).
Returns the response and the updated completed / dismissed sets. -/
def handleEventAction (method : String) (body : Option (Option String × Option String))
    (completed dismissed : List String) : ActionResponse × List String × List String :=
  if method ≠ "POST" then
    (⟨405, false, some "Method not allowed", none, none, none⟩, completed, dismissed)
  else
    match body with
    | none =>
      (⟨500, false, some "Failed to process event action", none, none, none⟩,
        completed, dismissed)
    | some (eventIdOpt, actionOpt) =>
      let eventId := eventIdOpt.getD ""
      let action := actionOpt.getD ""
      if eventId = "" ∨ action = "" then
        (⟨400, false, some "Event ID and action required", none, none, none⟩,
          completed, dismissed)
      else if action = "complete" then
        (⟨200, true, none, some eventId, some action,
            some ("Event " ++ action ++ "d successfully")⟩,
          insertSet completed eventId, dismissed)
      else if action = "dismiss" then
        (⟨200, true, none, some eventId, some action,
            some ("Event " ++ action ++ "d successfully")⟩,
          completed, insertSet dismissed eventId)
      else
        (⟨400, false, some "Invalid action", none, none, none⟩, completed, dismissed)

/-- One entry of the hardcoded `calendarSources` array, together with the
outcome the network would deliver if this source were fetched. -/
structure CalSource where
  name : String
  url : String
  fetched : Except String String
deriving Repr

/-- The "configured" test of `handleAppleCalendar`: a URL is skipped when it
is empty or contains `your_` or `_here`. -/
def sourceConfigured (url : String) : Bool :=
  !(url = "" || containsStr url "your_" || containsStr url "_here")

/-- The sort key of the aggregator's comparator
`new Date(a.date).getTime() - new Date(b.date).getTime()`. ECMAScript
leaves the sort order implementation-defined when the comparator returns
`NaN` (an unparsable `date`), so the model fixes the key of an invalid date
to `0`; all theorems about the order assume parseable dates. -/
def dateKey (s : String) : Int := (jsParseDashDate s).getD 0

namespace Server


/-- The per-source fetch-and-parse loop of `handleAppleCalendar`:
unconfigured sources are skipped, a failed fetch is caught and contributes
nothing, a successful fetch is parsed and appended. -/
def collectEvents (sources : List CalSource) (now : Nat) (today : String) :
    List CalendarEvent :=
  match sources with
  | [] => []
  | s :: rest =>
    (if sourceConfigured s.url then
      match s.fetched with
      | Except.ok text => parseICSData text s.name now today
      | Except.error _ => []
     else []) ++ collectEvents rest now today

/-- Ascending-by-`date` comparator of the aggregator's sort. -/
def dateLE (a b : CalendarEvent) : Bool := decide (dateKey a.date ≤ dateKey b.date)

/-- The JSON body of `GET /api/calendar`. -/
structure CalendarResponse where
  events : List CalendarEvent
  total_events : Nat
  filtered_events : Nat
  completed_count : Nat
  dismissed_count : Nat
  sources : List (String × Bool)
deriving Repr

/-- `handleAppleCalendar` of `server.ts`: collect events from every
configured source, drop events whose id is completed or dismissed, sort the
remainder by `date` (ES `Array.prototype.sort` is stable, i.e. a merge
sort), and report the counts and per-source configuration flags. -/
def handleAppleCalendar (sources : List CalSource) (completed dismissed : List String)
    (now : Nat) (today : String) : CalendarResponse :=
  let allEvents := collectEvents sources now today
  let filteredEvents := allEvents.filter
    (fun e => !(completed.contains e.id) && !(dismissed.contains e.id))
  let sortedEvents := filteredEvents.mergeSort dateLE
  { events := sortedEvents
    total_events := allEvents.length
    filtered_events := filteredEvents.length
    completed_count := completed.length
    dismissed_count := dismissed.length
    sources := sources.map (fun s => (s.name, sourceConfigured s.url)) }

end Server

namespace Backup

/-- A normalized calendar event as produced by `server-backup.ts`'s
`parseICSData` (it additionally carries the `isAllDay` flag). -/
structure CalendarEvent where
  id : String
  title : String
  date : String
  time : String
  duration : String
  description : String
  location : String
  priority : String
  source : String
  isAllDay : Bool
deriving Repr, DecidableEq

/-- `formatICSTime` of `server-backup.ts`: strips the first `Z` before
slicing `HH:MM` out of the time segment. -/
def formatICSTime (icsDate : String) : String :=
  if icsDate = "" then "00:00"
  else
    let cleanDate := icsDate.toList.takeWhile (fun c => c ≠ 'Z')
      ++ (icsDate.toList.dropWhile (fun c => c ≠ 'Z')).drop 1
    if ¬ cleanDate.contains 'T' then "00:00"
    else
      let timePart := splitTSecond cleanDate
      if timePart ≠ [] ∧ 4 ≤ timePart.length then
        String.mk (jsSubstring timePart 0 2) ++ ":" ++ String.mk (jsSubstring timePart 2 4)
      else "00:00"

/-- `calculateDuration` of `server-backup.ts`: all-day short-circuit, then
day / rounded-hour / rounded-minute bucketing with a `"1 hour"` floor. A
`none` parse models an Invalid Date: its `NaN` fails every comparison in
the JS code and falls through to the final `"1 hour"`. -/
def calculateDuration (start_ end_ : String) (isAllDay : Bool) : String :=
  if start_ = "" then (if isAllDay then "All day" else "1 hour")
  else if end_ = "" then (if isAllDay then "All day" else "1 hour")
  else if isAllDay then "All day"
  else
    match jsParseBackup start_, jsParseBackup end_ with
    | some s, some e =>
      let diffMs := e - s
      if diffMs ≤ 0 then "1 hour"
      else
        let diffDays := Int.fdiv diffMs 86400000
        if diffDays > 0 then
          toString diffDays ++ " day" ++ (if diffDays ≠ 1 then "s" else "")
        else
          let diffHours := jsRoundDiv diffMs 3600000
          let diffMinutes := jsRoundDiv diffMs 60000
          if diffHours > 0 then
            toString diffHours ++ " hour" ++ (if diffHours ≠ 1 then "s" else "")
          else if diffMinutes > 0 then
            toString diffMinutes ++ " minute" ++ (if diffMinutes ≠ 1 then "s" else "")
          else "1 hour"
    | _, _ => "1 hour"

/-- The property-line switch of `server-backup.ts`'s `parseICSData`; unlike
the live server it records whether `DTSTART` carried `;VALUE=DATE`. -/
def applyProp (ev : RawEvent) (line : String) : RawEvent :=
  match jsSplitColon line with
  | [] => ev
  | key :: valueParts =>
    let value := joinColon valueParts
    if key = "SUMMARY" then { ev with summary := value }
    else if key = "DTSTART" then { ev with dtstart := value, dtstartType := "DATETIME" }
    else if key = "DTSTART;VALUE=DATE" then { ev with dtstart := value, dtstartType := "DATE" }
    else if key = "DTEND" then { ev with dtend := value }
    else if key = "DTEND;VALUE=DATE" then { ev with dtend := value }
    else if key = "DESCRIPTION" then { ev with description := value }
    else if key = "LOCATION" then { ev with location := value }
    else if key = "UID" then { ev with uid := value }
    else ev

/-- The all-day test of `server-backup.ts`: `VALUE=DATE` marker, or a
`T`-less 8-character start token. -/
def isAllDayOf (ev : RawEvent) : Bool :=
  ev.dtstartType = "DATE" || (!(ev.dtstart.toList.contains 'T') && ev.dtstart.toList.length = 8)

/-- The event record pushed on `END:VEVENT` (`server-backup.ts`). -/
def mkEvent (ev : RawEvent) (sourceName : String) (now : Nat) (today : String) :
    CalendarEvent :=
  let allDay := isAllDayOf ev
  { id := if ev.uid = "" then toString now else ev.uid
    title := ev.summary
    date := formatICSDate ev.dtstart today
    time := if allDay then "All day" else formatICSTime ev.dtstart
    duration := calculateDuration ev.dtstart ev.dtend allDay
    description := ev.description
    location := ev.location
    priority := "medium"
    source := sourceName
    isAllDay := allDay }

/-- The `END:VEVENT` guard of `server-backup.ts`. -/
def emitEvent (ev : RawEvent) (sourceName : String) (now : Nat) (today : String) :
    List CalendarEvent :=
  if ev.summary ≠ "" ∧ ev.dtstart ≠ "" then [mkEvent ev sourceName now today] else []

/-- The line loop of `server-backup.ts`'s `parseICSData`. -/
def parseLoop (sourceName : String) (now : Nat) (today : String) :
    List String → Option RawEvent → List CalendarEvent
  | [], _ => []
  | line :: rest, cur =>
    let t := jsTrim line
    if t = "BEGIN:VEVENT" then parseLoop sourceName now today rest (some RawEvent.empty)
    else
      match cur with
      | some ev =>
        if t = "END:VEVENT" then
          emitEvent ev sourceName now today ++ parseLoop sourceName now today rest none
        else if t.toList.contains ':' then
          parseLoop sourceName now today rest (some (applyProp ev t))
        else parseLoop sourceName now today rest (some ev)
      | none => parseLoop sourceName now today rest none

/-- `parseICSData` of `server-backup.ts`. -/
def parseICSData (icsData : String) (sourceName : String) (now : Nat) (today : String) :
    List CalendarEvent :=
  parseLoop sourceName now today (jsSplitLines icsData) none

end Backup

/-- The upstream weather payload as far as the handler inspects it:
`hasCurrent` models whether the JSON has a `current` field (the 3.0 shape),
`payload` stands for the rest. -/
structure WData where
  hasCurrent : Bool
  payload : String
deriving Repr, DecidableEq

/-- The single weather cache slot (`weatherCache`). -/
structure WeatherCacheEntry where
  data : WData
  timestamp : Int
deriving Repr, DecidableEq

/-- 30 minutes in milliseconds (`WEATHER_CACHE_DURATION`). -/
def WEATHER_CACHE_DURATION : Int := 30 * 60 * 1000

/-- The JSON body of `GET /api/weather` as far as the claims inspect it
(absent JSON fields are `none`; the 500 error body carries neither data nor
cache fields). -/
structure WeatherResponse where
  status : Nat
  data : Option WData
  cached : Bool
  cache_age_minutes : Option Int
  api_version : Option String
  error : Option String
deriving Repr, DecidableEq

/-- The fetch-and-cache branch of `handleWeather` (the `try` block):
`fetchResult` is the outcome of the upstream call(s) after the 3.0→2.5
fallback, `Except.error` covering both a thrown fetch and a final non-ok
response. On success the slot is overwritten with the new payload and the
read's `now`. -/
def weatherFetchBranch (cache : Option WeatherCacheEntry) (now : Int)
    (fetchResult : Except String WData) : WeatherResponse × Option WeatherCacheEntry :=
  match fetchResult with
  | Except.ok d =>
    (⟨200, some d, false, none, some (if d.hasCurrent then "3.0" else "2.5"), none⟩,
      some ⟨d, now⟩)
  | Except.error m =>
    (⟨500, none, false, none, none, some m⟩, cache)

/-- `handleWeather` (identical in both servers): configuration check, then
the 30-minute single-slot cache, then the upstream fetch. Cached responses
carry `cached=true` and `Math.round((now - timestamp) / 60000)` minutes of
age, and leave the slot untouched. -/
def handleWeather (configured : Bool) (cache : Option WeatherCacheEntry) (now : Int)
    (fetchResult : Except String WData) : WeatherResponse × Option WeatherCacheEntry :=
  if ¬ configured then
    (⟨400, none, false, none, none, some "Weather API key not configured"⟩, cache)
  else
    match cache with
    | some c =>
      if now - c.timestamp < WEATHER_CACHE_DURATION then
        (⟨200, some c.data, true, some (jsRoundDiv (now - c.timestamp) 60000), none, none⟩,
          some c)
      else weatherFetchBranch cache now fetchResult
    | none => weatherFetchBranch cache now fetchResult

/-- Modelled from the spec's words (claim C6), for comparison with the
source's `calculateDuration`: a positive difference is bucketed largest
unit first — at least one whole day gives `"N day(s)"`, else rounded whole
hours give `"N hour(s)"`, else rounded minutes give `"N minute(s)"`, else
the `"1 hour"` default; a difference of zero or less gives `"1 hour"`. -/
def specDurationBucket (diff : Int) : String :=
  if diff ≤ 0 then "1 hour"
  else if 86400000 ≤ diff then
    toString (Int.fdiv diff 86400000) ++ " day"
      ++ (if Int.fdiv diff 86400000 ≠ 1 then "s" else "")
  else if 1 ≤ jsRoundDiv diff 3600000 then
    toString (jsRoundDiv diff 3600000) ++ " hour"
      ++ (if jsRoundDiv diff 3600000 ≠ 1 then "s" else "")
  else if 1 ≤ jsRoundDiv diff 60000 then
    toString (jsRoundDiv diff 60000) ++ " minute"
      ++ (if jsRoundDiv diff 60000 ≠ 1 then "s" else "")
  else "1 hour"

/-- Modelled from the spec's words (claim C7), for comparison with the
counts the source reports: the number of distinct ids in
`completed ∪ dismissed` that are present among the aggregated events. -/
def claimIdsPresentCount (completed dismissed : List String)
    (events : List Server.CalendarEvent) : Nat :=
  ((completed ++ dismissed).dedup.filter (fun i => events.any (fun e => e.id = i))).length

/-! ## Helper lemmas -/

theorem jsParseBackup_empty : jsParseBackup "" = none := rfl

theorem isDig_ne_T {c : Char} (h : isDig c = true) : ¬ (c = 'T') := by
  intro e
  subst e
  exact absurd h (by decide)

/-! ## Claims -/

/-- C5, claim as stated is false on the live `server.ts` parser: a
well-formed block whose start is `DTSTART;VALUE=DATE:20250615` (with a
summary present) yields `time = "00:00"` and `duration = "1 hour"`, not the
literal `"All day"` the claim requires for both fields. -/
theorem counterexample_C5 :
    (Server.parseICSData
        "BEGIN:VEVENT\nSUMMARY:Holiday\nDTSTART;VALUE=DATE:20250615\nEND:VEVENT"
        "Apple Calendar" 0 "2026-01-01").map (fun e => (e.time, e.duration))
      = [("00:00", "1 hour")] ∧ ("00:00" : String) ≠ "All day" := ⟨by decide, by decide⟩

/-- C5, amended: the backup parser (`server-backup.ts`) does route the
all-day flag through, yielding `time = "All day"` and
`duration = "All day"` for a `DTSTART;VALUE=DATE:20250615` block, while the
live `server.ts` parser yields `time = "00:00"` and `duration = "1 hour"`
for the same block. -/
theorem claim_C5 (sourceName today : String) (now : Nat) :
    (Backup.parseICSData
        "BEGIN:VEVENT\nSUMMARY:Holiday\nDTSTART;VALUE=DATE:20250615\nEND:VEVENT"
        sourceName now today).map (fun e => (e.time, e.duration))
      = [("All day", "All day")] ∧
    (Server.parseICSData
        "BEGIN:VEVENT\nSUMMARY:Holiday\nDTSTART;VALUE=DATE:20250615\nEND:VEVENT"
        sourceName now today).map (fun e => (e.time, e.duration))
      = [("00:00", "1 hour")] := ⟨rfl, rfl⟩

/-- C6, claim as stated is false on the live `server.ts`
`calculateDuration`: a 48-hour difference yields `"48 hours"`, not the
`"2 days"` the claim's day bucket requires. -/
theorem counterexample_C6 :
    Server.calculateDuration "20250615T090000" "20250617T090000" = "48 hours" ∧
    ("48 hours" : String) ≠ "2 days" := ⟨by decide, by decide⟩

/-- C6, amended: the stated largest-unit-first bucketing (whole days, else
rounded hours, else rounded minutes, else `"1 hour"`; non-positive,
missing or unparseable input gives `"1 hour"`; the concrete 9:00→11:00
example gives `"2 hours"`) holds for `server-backup.ts`'s
`calculateDuration`, while `server.ts`'s `calculateDuration` reports only
rounded hours — `"N hour(s)"` when the rounded difference is positive and
`"1 hour"` otherwise — never days or minutes. -/
theorem claim_C6 :
    (∀ s e : String, (jsParseBackup s).isSome = true → (jsParseBackup e).isSome = true →
       Backup.calculateDuration s e false
         = specDurationBucket ((jsParseBackup e).getD 0 - (jsParseBackup s).getD 0)) ∧
    (∀ s e : String, jsParseBackup s = none ∨ jsParseBackup e = none →
       Backup.calculateDuration s e false = "1 hour") ∧
    Backup.calculateDuration "20250615T090000" "20250615T110000" false = "2 hours" ∧
    Backup.calculateDuration "20250615T090000" "20250615T090000" false = "1 hour" ∧
    (∀ s e sv ev : _, jsParseServer s = some sv → jsParseServer e = some ev →
       Server.calculateDuration s e =
         (if 0 < jsRoundDiv (ev - sv) 3600000 then
            toString (jsRoundDiv (ev - sv) 3600000) ++ " hour"
              ++ (if jsRoundDiv (ev - sv) 3600000 ≠ 1 then "s" else "")
          else "1 hour")) := by
  refine ⟨?_, ?_, by decide, by decide, ?_⟩
  · intro s e hs he
    obtain ⟨sv, hsv⟩ := Option.isSome_iff_exists.mp hs
    obtain ⟨ev, hev⟩ := Option.isSome_iff_exists.mp he
    have hs0 : ¬ (s = "") := fun h => by rw [h, jsParseBackup_empty] at hsv; cases hsv
    have he0 : ¬ (e = "") := fun h => by rw [h, jsParseBackup_empty] at hev; cases hev
    rw [hsv, hev]
    simp only [Backup.calculateDuration, if_neg hs0, if_neg he0, hsv, hev,
      Option.getD_some, Bool.false_eq_true, if_false]
    by_cases h0 : ev - sv ≤ 0
    · simp [specDurationBucket, h0]
    · have hde : Int.fdiv (ev - sv) 86400000 = (ev - sv) / 86400000 :=
        Int.fdiv_eq_ediv _ (by norm_num)
      have hhe : jsRoundDiv (ev - sv) 3600000 = (2 * (ev - sv) + 3600000) / 7200000 := by
        unfold jsRoundDiv
        exact Int.fdiv_eq_ediv _ (by norm_num)
      have hme : jsRoundDiv (ev - sv) 60000 = (2 * (ev - sv) + 60000) / 120000 := by
        unfold jsRoundDiv
        exact Int.fdiv_eq_ediv _ (by norm_num)
      by_cases hd : 86400000 ≤ ev - sv
      · have h1 : 0 < Int.fdiv (ev - sv) 86400000 := by rw [hde]; omega
        simp [specDurationBucket, h0, hd, h1]
      · have h1 : ¬ 0 < Int.fdiv (ev - sv) 86400000 := by rw [hde]; omega
        by_cases hh : 1 ≤ jsRoundDiv (ev - sv) 3600000
        · simp only [specDurationBucket, if_neg h0, if_neg hd, if_pos hh, if_neg h1,
            if_pos (by omega : 0 < jsRoundDiv (ev - sv) 3600000)]
        · by_cases hm : 1 ≤ jsRoundDiv (ev - sv) 60000
          · simp only [specDurationBucket, if_neg h0, if_neg hd, if_neg hh, if_pos hm, if_neg h1,
              if_neg (by omega : ¬ 0 < jsRoundDiv (ev - sv) 3600000),
              if_pos (by omega : 0 < jsRoundDiv (ev - sv) 60000)]
          · simp only [specDurationBucket, if_neg h0, if_neg hd, if_neg hh, if_neg hm, if_neg h1,
              if_neg (by omega : ¬ 0 < jsRoundDiv (ev - sv) 3600000),
              if_neg (by omega : ¬ 0 < jsRoundDiv (ev - sv) 60000)]
  · intro s e h
    by_cases hs0 : s = ""
    · simp [Backup.calculateDuration, hs0]
    · by_cases he0 : e = ""
      · simp [Backup.calculateDuration, hs0, he0]
      · rcases h with h | h
        · cases hpe : jsParseBackup e
          · simp [Backup.calculateDuration, hs0, he0, h, hpe]
          · simp [Backup.calculateDuration, hs0, he0, h, hpe]
        · cases hps : jsParseBackup s
          · simp [Backup.calculateDuration, hs0, he0, h, hps]
          · simp [Backup.calculateDuration, hs0, he0, h, hps]
  · intro s e sv ev hsv hev
    have hs0 : ¬ (s = "") := fun h => by rw [h] at hsv; cases hsv
    have he0 : ¬ (e = "") := fun h => by rw [h] at hev; cases hev
    simp only [Server.calculateDuration, hs0, he0, or_self, if_false, hsv, hev, gt_iff_lt]

/-- C6 witness: the amended bucketing theorem applied at concrete parseable
tokens 48 hours apart. -/
theorem claim_C6_witness :
    Backup.calculateDuration "20250615T090000" "20250617T090000" false
      = specDurationBucket ((jsParseBackup "20250617T090000").getD 0
          - (jsParseBackup "20250615T090000").getD 0) :=
  claim_C6.1 "20250615T090000" "20250617T090000" (by decide) (by decide)

/-- C9, claim as stated is false: the 8-character input `"ABCDEFGH"` is
neither an 8-digit date token nor a date+time token, so the claim requires
today's date, but `formatICSDate` slices it positionally into
`"ABCD-EF-GH"`. -/
theorem counterexample_C9 :
    formatICSDate "ABCDEFGH" "2026-01-01" = "ABCD-EF-GH" ∧
    ("ABCD-EF-GH" : String) ≠ "2026-01-01" := ⟨by decide, by decide⟩

/-- C9, amended: `formatICSDate` slices every 8-character token
positionally into `Y-M-D` (which is the corresponding `YYYY-MM-DD` when
the token is 8 digits), slices the pre-`T` part of a digit-date+`T` token
the same way, and returns today's date exactly for inputs that are neither
8 characters long nor contain `T` (including the empty token). -/
theorem claim_C9 :
    (∀ (today : String) (c1 c2 c3 c4 c5 c6 c7 c8 : Char),
        formatICSDate (String.mk [c1, c2, c3, c4, c5, c6, c7, c8]) today
          = String.mk [c1, c2, c3, c4, '-', c5, c6, '-', c7, c8]) ∧
    (∀ (today : String) (c1 c2 c3 c4 c5 c6 c7 c8 : Char) (rest : List Char),
        [c1, c2, c3, c4, c5, c6, c7, c8].all isDig = true →
        formatICSDate (String.mk ([c1, c2, c3, c4, c5, c6, c7, c8] ++ 'T' :: rest)) today
          = String.mk [c1, c2, c3, c4, '-', c5, c6, '-', c7, c8]) ∧
    (∀ (today s : String), s.toList.length ≠ 8 → s.toList.contains 'T' = false →
        formatICSDate s today = today) ∧
    formatICSDate "20250615" "2026-01-01" = "2025-06-15" ∧
    formatICSDate "20250615T090000" "2026-01-01" = "2025-06-15" ∧
    (∀ today : String, formatICSDate "" today = today) := by
  refine ⟨?_, ?_, ?_, by decide, by decide, fun _ => rfl⟩
  · intro today c1 c2 c3 c4 c5 c6 c7 c8
    rfl
  · intro today c1 c2 c3 c4 c5 c6 c7 c8 rest hdig
    simp only [List.all_cons, List.all_nil, Bool.and_eq_true, and_true] at hdig
    obtain ⟨h1, h2, h3, h4, h5, h6, h7, h8⟩ := hdig
    have hne : String.mk ([c1, c2, c3, c4, c5, c6, c7, c8] ++ 'T' :: rest) ≠ "" := by
      simp [String.ext_iff]
    rw [formatICSDate, if_neg hne]
    have hlen : (String.mk ([c1, c2, c3, c4, c5, c6, c7, c8] ++ 'T' :: rest)).toList.length
        ≠ 8 := by simp
    rw [if_neg hlen]
    have hct : (String.mk ([c1, c2, c3, c4, c5, c6, c7, c8] ++ 'T' :: rest)).toList.contains 'T'
        = true := by simp
    simp only [hct, if_true]
    have htw : (String.mk ([c1, c2, c3, c4, c5, c6, c7, c8] ++ 'T' :: rest)).toList.takeWhile
        (fun c => c ≠ 'T') = [c1, c2, c3, c4, c5, c6, c7, c8] := by
      simp only [List.cons_append, List.nil_append]
      simp [List.takeWhile_cons, isDig_ne_T h1, isDig_ne_T h2, isDig_ne_T h3, isDig_ne_T h4,
        isDig_ne_T h5, isDig_ne_T h6, isDig_ne_T h7, isDig_ne_T h8]
    rw [htw]
    rfl
  · intro today s h8 hT
    by_cases hs : s = ""
    · simp [formatICSDate, hs]
    · simp only [formatICSDate, if_neg hs]
      simp at h8 hT
      simp [h8, hT]

/-- C9 witness: the amended slicing theorem applied at the digit token
`"20250615"` and the date+time token `"20250615T090000"`. -/
theorem claim_C9_witness :
    formatICSDate (String.mk ['2', '0', '2', '5', '0', '6', '1', '5']) "2026-01-01"
      = String.mk ['2', '0', '2', '5', '-', '0', '6', '-', '1', '5'] ∧
    formatICSDate (String.mk (['2', '0', '2', '5', '0', '6', '1', '5']
        ++ 'T' :: ['0', '9', '0', '0', '0', '0'])) "2026-01-01"
      = String.mk ['2', '0', '2', '5', '-', '0', '6', '-', '1', '5'] :=
  ⟨claim_C9.1 "2026-01-01" '2' '0' '2' '5' '0' '6' '1' '5',
   claim_C9.2.1 "2026-01-01" '2' '0' '2' '5' '0' '6' '1' '5'
     ['0', '9', '0', '0', '0', '0'] (by decide)⟩

/-- C4: with the API key configured, a read that finds a cache entry
younger than 30 minutes returns that entry's data with `cached = true` and
`cache_age_minutes` equal to the age rounded to minutes, does not depend on
the upstream (the result is the same for any fetch outcome) and leaves the
slot untouched; a read with an empty slot or an entry at least 30 minutes
old attempts the fetch, and on success the slot is overwritten with the
new payload and the read's timestamp, the response carrying
`cached = false`. -/
theorem claim_C4 (cache : Option WeatherCacheEntry) (c : WeatherCacheEntry) (now : Int)
    (fr fr' : Except String WData) (d : WData) :
    (cache = some c → now - c.timestamp < WEATHER_CACHE_DURATION →
      handleWeather true cache now fr = handleWeather true cache now fr' ∧
      (handleWeather true cache now fr).1.status = 200 ∧
      (handleWeather true cache now fr).1.cached = true ∧
      (handleWeather true cache now fr).1.data = some c.data ∧
      (handleWeather true cache now fr).1.cache_age_minutes
        = some (jsRoundDiv (now - c.timestamp) 60000) ∧
      (handleWeather true cache now fr).2 = cache) ∧
    ((cache = none ∨ (cache = some c ∧ WEATHER_CACHE_DURATION ≤ now - c.timestamp)) →
      fr = Except.ok d →
      (handleWeather true cache now fr).1.cached = false ∧
      (handleWeather true cache now fr).1.data = some d ∧
      (handleWeather true cache now fr).2 = some ⟨d, now⟩) := by
  constructor
  · intro hc hfresh
    subst hc
    simp [handleWeather, hfresh]
  · intro hc hok
    subst hok
    rcases hc with hc | ⟨hc, hstale⟩
    · subst hc
      simp [handleWeather, weatherFetchBranch]
    · subst hc
      simp [handleWeather, weatherFetchBranch, not_lt.mpr hstale]

/-- C4 witness: a 2-minute-old entry is served from cache even when the
upstream would fail, and a 2-hour-old entry is overwritten by a successful
fetch. -/
theorem claim_C4_witness :
    (handleWeather true (some ⟨⟨true, "w"⟩, 0⟩) 120000 (Except.error "boom")).1.cached = true ∧
    (handleWeather true (some ⟨⟨true, "w"⟩, 0⟩) 120000 (Except.error "boom")).1.cache_age_minutes
      = some 2 ∧
    (handleWeather true (some ⟨⟨true, "w"⟩, 0⟩) 7200000 (Except.ok ⟨false, "v"⟩)).2
      = some ⟨⟨false, "v"⟩, 7200000⟩ := by
  refine ⟨?_, ?_, ?_⟩
  · exact ((claim_C4 (some ⟨⟨true, "w"⟩, 0⟩) ⟨⟨true, "w"⟩, 0⟩ 120000 (Except.error "boom")
      (Except.error "boom") ⟨false, "v"⟩).1 rfl (by decide)).2.2.1
  · exact (((claim_C4 (some ⟨⟨true, "w"⟩, 0⟩) ⟨⟨true, "w"⟩, 0⟩ 120000 (Except.error "boom")
      (Except.error "boom") ⟨false, "v"⟩).1 rfl (by decide)).2.2.2.2.1).trans (by decide)
  · exact ((claim_C4 (some ⟨⟨true, "w"⟩, 0⟩) ⟨⟨true, "w"⟩, 0⟩ 7200000 (Except.ok ⟨false, "v"⟩)
      (Except.error "x") ⟨false, "v"⟩).2 (Or.inr ⟨rfl, by decide⟩) rfl).2.2

/-- C8: on a well-formed POST, a missing (or empty) `eventId` or `action`
yields a 400 response and leaves both sets unchanged; an action other than
`"complete"` / `"dismiss"` yields a 400 "Invalid action" response and
leaves both sets unchanged; a valid request adds the id to exactly the set
matching the action and returns the success response carrying `eventId`,
`action` and a message. -/
theorem claim_C8 (completed dismissed : List String) (eo ao : Option String) :
    (eo.getD "" = "" ∨ ao.getD "" = "" →
       (handleEventAction "POST" (some (eo, ao)) completed dismissed).1
         = ⟨400, false, some "Event ID and action required", none, none, none⟩ ∧
       (handleEventAction "POST" (some (eo, ao)) completed dismissed).2
         = (completed, dismissed)) ∧
    (eo.getD "" ≠ "" → ao.getD "" ≠ "" → ao.getD "" ≠ "complete" → ao.getD "" ≠ "dismiss" →
       (handleEventAction "POST" (some (eo, ao)) completed dismissed).1
         = ⟨400, false, some "Invalid action", none, none, none⟩ ∧
       (handleEventAction "POST" (some (eo, ao)) completed dismissed).2
         = (completed, dismissed)) ∧
    (∀ eid, eo = some eid → eid ≠ "" → ao = some "complete" →
       (handleEventAction "POST" (some (eo, ao)) completed dismissed).1
         = ⟨200, true, none, some eid, some "complete", some "Event completed successfully"⟩ ∧
       (handleEventAction "POST" (some (eo, ao)) completed dismissed).2
         = (insertSet completed eid, dismissed)) ∧
    (∀ eid, eo = some eid → eid ≠ "" → ao = some "dismiss" →
       (handleEventAction "POST" (some (eo, ao)) completed dismissed).1
         = ⟨200, true, none, some eid, some "dismiss", some "Event dismissd successfully"⟩ ∧
       (handleEventAction "POST" (some (eo, ao)) completed dismissed).2
         = (completed, insertSet dismissed eid)) := by
  refine ⟨?_, ?_, ?_, ?_⟩
  · intro h
    rcases h with h | h
    · simp [handleEventAction, h]
    · by_cases he : eo.getD "" = ""
      · simp [handleEventAction, he]
      · simp [handleEventAction, he, h]
  · intro he ha hc hd
    simp [handleEventAction, he, ha, hc, hd]
  · intro eid heo heid hao
    subst heo
    subst hao
    simp [handleEventAction, heid]
  · intro eid heo heid hao
    subst heo
    subst hao
    simp [handleEventAction, heid]

/-- C8 witness: the validation theorem applied at a valid completion, a
missing `eventId` and an invalid action. -/
theorem claim_C8_witness :
    (handleEventAction "POST" (some (some "e1", some "complete")) [] []).1
      = ⟨200, true, none, some "e1", some "complete", some "Event completed successfully"⟩ ∧
    (handleEventAction "POST" (some (none, some "complete")) ["a"] ["b"]).2
      = (["a"], ["b"]) ∧
    (handleEventAction "POST" (some (some "e1", some "destroy")) ["a"] ["b"]).1
      = ⟨400, false, some "Invalid action", none, none, none⟩ := by
  refine ⟨?_, ?_, ?_⟩
  · exact ((claim_C8 [] [] (some "e1") (some "complete")).2.2.1 "e1" rfl (by decide) rfl).1
  · exact ((claim_C8 ["a"] ["b"] none (some "complete")).1 (Or.inl rfl)).2
  · exact ((claim_C8 ["a"] ["b"] (some "e1") (some "destroy")).2.1 (by decide) (by decide)
      (by decide) (by decide)).1

/-- C10: within one `parseICSData` call under a constant clock reading,
every UID-less block's event receives the same fallback id
`toString now`; two distinct UID-less events therefore share one id, and a
single `complete` action on that id excludes both from a later
aggregation. -/
theorem claim_C10 (now : Nat) (sourceName today : String) :
    ((Server.parseICSData
        "BEGIN:VEVENT\nSUMMARY:Alpha\nDTSTART:20250615T090000\nEND:VEVENT\nBEGIN:VEVENT\nSUMMARY:Beta\nDTSTART:20250616T100000\nEND:VEVENT"
        sourceName now today).map (fun e => e.id)) = [toString now, toString now] ∧
    ((Server.parseICSData
        "BEGIN:VEVENT\nSUMMARY:Alpha\nDTSTART:20250615T090000\nEND:VEVENT\nBEGIN:VEVENT\nSUMMARY:Beta\nDTSTART:20250616T100000\nEND:VEVENT"
        sourceName now today).map (fun e => e.title)) = ["Alpha", "Beta"] ∧
    (Server.handleAppleCalendar
        [⟨"Apple Calendar", "https://example.com/cal.ics",
          Except.ok "BEGIN:VEVENT\nSUMMARY:Alpha\nDTSTART:20250615T090000\nEND:VEVENT\nBEGIN:VEVENT\nSUMMARY:Beta\nDTSTART:20250616T100000\nEND:VEVENT"⟩]
        [toString now] [] now today).events = [] := by
  refine ⟨rfl, rfl, ?_⟩
  have hparse : ∀ nm : String, Server.parseICSData
      "BEGIN:VEVENT\nSUMMARY:Alpha\nDTSTART:20250615T090000\nEND:VEVENT\nBEGIN:VEVENT\nSUMMARY:Beta\nDTSTART:20250616T100000\nEND:VEVENT"
      nm now today =
    [{ id := toString now, title := "Alpha", date := "2025-06-15", time := "09:00",
       duration := "1 hour", description := "", location := "", priority := "medium",
       source := nm },
     { id := toString now, title := "Beta", date := "2025-06-16", time := "10:00",
       duration := "1 hour", description := "", location := "", priority := "medium",
       source := nm }] := fun nm => rfl
  have hconf : sourceConfigured "https://example.com/cal.ics" = true := by decide
  simp [Server.handleAppleCalendar, Server.collectEvents, hconf, hparse]

/-- C1 auxiliary: processing the inside of a single `VEVENT` block folds
the property lines into the accumulator and lets the `END:VEVENT` guard
decide the emission. -/
theorem parseLoop_block (sourceName : String) (now : Nat) (today : String) :
    ∀ (body : List String) (ev : RawEvent),
      (∀ l ∈ body, jsTrim l ≠ "BEGIN:VEVENT" ∧ jsTrim l ≠ "END:VEVENT") →
      Server.parseLoop sourceName now today (body ++ ["END:VEVENT"]) (some ev)
        = Server.emitEvent (body.foldl (fun a l =>
            if (jsTrim l).toList.contains ':' then Server.applyProp a (jsTrim l) else a) ev)
            sourceName now today := by
  intro body
  induction body with
  | nil =>
    intro ev _
    show Server.parseLoop sourceName now today ["END:VEVENT"] (some ev) = _
    simp [Server.parseLoop, show jsTrim "END:VEVENT" = "END:VEVENT" from rfl,
      show jsTrim "END:VEVENT" ≠ "BEGIN:VEVENT" from by decide]
  | cons l rest ih =>
    intro ev hb
    obtain ⟨hbegin, hend⟩ := hb l (List.mem_cons_self l rest)
    have hrest := fun x hx => hb x (List.mem_cons_of_mem l hx)
    show Server.parseLoop sourceName now today (l :: (rest ++ ["END:VEVENT"])) (some ev) = _
    rw [Server.parseLoop]
    simp only [if_neg hbegin, if_neg hend]
    by_cases hc : (jsTrim l).toList.contains ':'
    · simp only [hc, if_true, List.foldl_cons]
      exact ih (Server.applyProp ev (jsTrim l)) hrest
    · simp only [hc, if_false, List.foldl_cons, Bool.false_eq_true]
      exact ih ev hrest

/-- C1: a single `VEVENT` block yields exactly one event iff the
accumulated summary and start token are both non-empty (and nothing
otherwise); in particular a well-formed `SUMMARY:X`,
`DTSTART:20250615T090000` block yields exactly one event with title
`"X"`, date `"2025-06-15"` and time `"09:00"`, while the same block
without a summary yields no event. -/
theorem claim_C1 :
    (∀ (body : List String) (sourceName : String) (now : Nat) (today : String),
       (∀ l ∈ body, jsTrim l ≠ "BEGIN:VEVENT" ∧ jsTrim l ≠ "END:VEVENT") →
       Server.parseLoop sourceName now today ("BEGIN:VEVENT" :: body ++ ["END:VEVENT"]) none
         = (if (body.foldl (fun a l =>
                if (jsTrim l).toList.contains ':' then Server.applyProp a (jsTrim l) else a)
                RawEvent.empty).summary ≠ ""
              ∧ (body.foldl (fun a l =>
                if (jsTrim l).toList.contains ':' then Server.applyProp a (jsTrim l) else a)
                RawEvent.empty).dtstart ≠ ""
            then [Server.mkEvent (body.foldl (fun a l =>
                if (jsTrim l).toList.contains ':' then Server.applyProp a (jsTrim l) else a)
                RawEvent.empty) sourceName now today]
            else [])) ∧
    (∀ (sourceName : String) (now : Nat) (today : String),
       Server.parseICSData "BEGIN:VEVENT\nSUMMARY:X\nDTSTART:20250615T090000\nEND:VEVENT"
           sourceName now today
         = [{ id := toString now, title := "X", date := "2025-06-15", time := "09:00",
              duration := "1 hour", description := "", location := "", priority := "medium",
              source := sourceName }]) ∧
    (∀ (sourceName : String) (now : Nat) (today : String),
       Server.parseICSData "BEGIN:VEVENT\nDTSTART:20250615T090000\nEND:VEVENT"
           sourceName now today = []) := by
  refine ⟨?_, fun _ _ _ => rfl, fun _ _ _ => rfl⟩
  intro body sourceName now today hb
  show Server.parseLoop sourceName now today (body ++ ["END:VEVENT"]) (some RawEvent.empty) = _
  rw [parseLoop_block sourceName now today body RawEvent.empty hb]
  rfl

/-- C1 witness: the block lemma applied at the concrete two-property
body. -/
theorem claim_C1_witness :
    Server.parseLoop "S" 7 "2026-01-01"
        ("BEGIN:VEVENT" :: ["SUMMARY:X", "DTSTART:20250615T090000"] ++ ["END:VEVENT"]) none
      = (if (["SUMMARY:X", "DTSTART:20250615T090000"].foldl (fun a l =>
              if (jsTrim l).toList.contains ':' then Server.applyProp a (jsTrim l) else a)
              RawEvent.empty).summary ≠ ""
            ∧ (["SUMMARY:X", "DTSTART:20250615T090000"].foldl (fun a l =>
              if (jsTrim l).toList.contains ':' then Server.applyProp a (jsTrim l) else a)
              RawEvent.empty).dtstart ≠ ""
         then [Server.mkEvent (["SUMMARY:X", "DTSTART:20250615T090000"].foldl (fun a l =>
              if (jsTrim l).toList.contains ':' then Server.applyProp a (jsTrim l) else a)
              RawEvent.empty) "S" 7 "2026-01-01"]
         else []) :=
  claim_C1.1 ["SUMMARY:X", "DTSTART:20250615T090000"] "S" 7 "2026-01-01" (by decide)

/-- C2 auxiliary, the stability of a merge sort stated through filters:
elements selected by a predicate on which the order is indifferent keep
their original relative positions. -/
theorem mergeSort_filter_stable {α : Type} (le : α → α → Bool)
    (htrans : ∀ a b c, le a b → le b c → le a c)
    (htotal : ∀ a b, le a b || le b a)
    (p : α → Bool) (hp : ∀ a b, p a = true → p b = true → le a b = true)
    (l : List α) :
    (l.mergeSort le).filter p = l.filter p := by
  have hmem : ∀ a ∈ l.filter p, p a = true := fun a ha => List.of_mem_filter ha
  have hpair : (l.filter p).Pairwise (fun a b => le a b) :=
    List.pairwise_of_forall_mem_list
      (fun a ha b hb => hp a b (List.of_mem_filter ha) (List.of_mem_filter hb))
  have h1 : List.Sublist (l.filter p) (l.mergeSort le) :=
    List.sublist_mergeSort htrans htotal hpair (List.filter_sublist l)
  have h2 : List.Sublist (l.filter p) ((l.mergeSort le).filter p) := by
    have h3 := h1.filter p
    rwa [List.filter_eq_self.mpr hmem] at h3
  have hperm : List.Perm ((l.mergeSort le).filter p) (l.filter p) :=
    (List.mergeSort_perm l le).filter p
  exact (h2.eq_of_length hperm.length_eq.symm).symm

theorem dateLE_trans (a b c : Server.CalendarEvent) :
    Server.dateLE a b → Server.dateLE b c → Server.dateLE a c := by
  simp only [Server.dateLE, decide_eq_true_eq]
  omega

theorem dateLE_total (a b : Server.CalendarEvent) :
    Server.dateLE a b || Server.dateLE b a := by
  simp only [Server.dateLE, Bool.or_eq_true, decide_eq_true_eq]
  omega

/-- C2: the aggregation's events array is a permutation of the collected
events minus the completed/dismissed ids, it is ordered ascending by the
date key alone, and for every calendar date the events of that date appear
exactly as in source-fetch order (the sort is stable, no time-of-day
tie-break). -/
theorem claim_C2 (sources : List CalSource) (completed dismissed : List String)
    (now : Nat) (today : String) :
    List.Perm ((Server.handleAppleCalendar sources completed dismissed now today).events)
        ((Server.collectEvents sources now today).filter
          (fun e => !(completed.contains e.id) && !(dismissed.contains e.id))) ∧
    ((Server.handleAppleCalendar sources completed dismissed now today).events).Pairwise
        (fun a b => dateKey a.date ≤ dateKey b.date) ∧
    (∀ k : Int,
      ((Server.handleAppleCalendar sources completed dismissed now today).events).filter
          (fun e => jsParseDashDate e.date == some k)
        = ((Server.collectEvents sources now today).filter
            (fun e => !(completed.contains e.id) && !(dismissed.contains e.id))).filter
            (fun e => jsParseDashDate e.date == some k)) := by
  refine ⟨?_, ?_, ?_⟩
  · exact List.mergeSort_perm _ _
  · have h := List.sorted_mergeSort dateLE_trans dateLE_total
      ((Server.collectEvents sources now today).filter
        (fun e => !(completed.contains e.id) && !(dismissed.contains e.id)))
    exact h.imp (fun hab => by simpa [Server.dateLE] using hab)
  · intro k
    exact mergeSort_filter_stable Server.dateLE dateLE_trans dateLE_total
      (fun e => jsParseDashDate e.date == some k)
      (fun a b ha hb => by
        simp only [beq_iff_eq] at ha hb
        simp [Server.dateLE, dateKey, ha, hb])
      _

/-- C3: with three configured sources of which the middle fetch throws,
the events parsed from the two successful sources all appear in the
aggregation result, and the `sources` array reports all three by their
configuration status whatever the fetch outcomes are. -/
theorem claim_C3 (s1 s2 s3 : CalSource) (t1 t3 err : String) (now : Nat) (today : String)
    (h1 : sourceConfigured s1.url = true) (h2 : sourceConfigured s2.url = true)
    (h3 : sourceConfigured s3.url = true)
    (hf1 : s1.fetched = Except.ok t1) (hf2 : s2.fetched = Except.error err)
    (hf3 : s3.fetched = Except.ok t3) :
    (∀ e ∈ Server.parseICSData t1 s1.name now today,
       e ∈ (Server.handleAppleCalendar [s1, s2, s3] [] [] now today).events) ∧
    (∀ e ∈ Server.parseICSData t3 s3.name now today,
       e ∈ (Server.handleAppleCalendar [s1, s2, s3] [] [] now today).events) ∧
    (∀ f1 f2 f3 : Except String String,
       (Server.handleAppleCalendar [⟨s1.name, s1.url, f1⟩, ⟨s2.name, s2.url, f2⟩,
           ⟨s3.name, s3.url, f3⟩] [] [] now today).sources
         = [(s1.name, true), (s2.name, true), (s3.name, true)]) := by
  have hev : (Server.handleAppleCalendar [s1, s2, s3] [] [] now today).events
      = (Server.parseICSData t1 s1.name now today
          ++ Server.parseICSData t3 s3.name now today).mergeSort Server.dateLE := by
    show ((Server.collectEvents [s1, s2, s3] now today).filter
        (fun e => !(List.contains [] e.id) && !(List.contains [] e.id))).mergeSort Server.dateLE
      = _
    simp [Server.collectEvents, h1, h2, h3, hf1, hf2, hf3]
  refine ⟨?_, ?_, ?_⟩
  · intro e he
    rw [hev, List.mem_mergeSort]
    exact List.mem_append_left _ he
  · intro e he
    rw [hev, List.mem_mergeSort]
    exact List.mem_append_right _ he
  · intro f1 f2 f3
    show List.map _ _ = _
    simp [h1, h2, h3]

/-- C3 witness: the isolation theorem applied to a concrete Todoist /
Apple Calendar / UK Holidays configuration where the middle fetch fails. -/
theorem claim_C3_witness :
    ({ id := "u1", title := "A", date := "2025-06-15", time := "09:00", duration := "1 hour",
       description := "", location := "", priority := "medium", source := "Todoist" }
      : Server.CalendarEvent)
      ∈ (Server.handleAppleCalendar
          [⟨"Todoist", "https://calendars.example/t.ics",
            Except.ok "BEGIN:VEVENT\nSUMMARY:A\nDTSTART:20250615T090000\nUID:u1\nEND:VEVENT"⟩,
           ⟨"Apple Calendar", "https://calendars.example/a.ics", Except.error "network down"⟩,
           ⟨"UK Holidays", "https://calendars.example/h.ics",
            Except.ok "BEGIN:VEVENT\nSUMMARY:B\nDTSTART:20250616T090000\nUID:u2\nEND:VEVENT"⟩]
          [] [] 0 "2026-01-01").events ∧
    (Server.handleAppleCalendar
        [⟨"Todoist", "https://calendars.example/t.ics",
          Except.ok "BEGIN:VEVENT\nSUMMARY:A\nDTSTART:20250615T090000\nUID:u1\nEND:VEVENT"⟩,
         ⟨"Apple Calendar", "https://calendars.example/a.ics", Except.error "network down"⟩,
         ⟨"UK Holidays", "https://calendars.example/h.ics",
          Except.ok "BEGIN:VEVENT\nSUMMARY:B\nDTSTART:20250616T090000\nUID:u2\nEND:VEVENT"⟩]
        [] [] 0 "2026-01-01").sources
      = [("Todoist", true), ("Apple Calendar", true), ("UK Holidays", true)] := by
  constructor
  · exact (claim_C3
      ⟨"Todoist", "https://calendars.example/t.ics",
        Except.ok "BEGIN:VEVENT\nSUMMARY:A\nDTSTART:20250615T090000\nUID:u1\nEND:VEVENT"⟩
      ⟨"Apple Calendar", "https://calendars.example/a.ics", Except.error "network down"⟩
      ⟨"UK Holidays", "https://calendars.example/h.ics",
        Except.ok "BEGIN:VEVENT\nSUMMARY:B\nDTSTART:20250616T090000\nUID:u2\nEND:VEVENT"⟩
      "BEGIN:VEVENT\nSUMMARY:A\nDTSTART:20250615T090000\nUID:u1\nEND:VEVENT"
      "BEGIN:VEVENT\nSUMMARY:B\nDTSTART:20250616T090000\nUID:u2\nEND:VEVENT"
      "network down" 0 "2026-01-01"
      (by decide) (by decide) (by decide) rfl rfl rfl).1 _ (by decide)
  · exact (claim_C3
      ⟨"Todoist", "https://calendars.example/t.ics",
        Except.ok "BEGIN:VEVENT\nSUMMARY:A\nDTSTART:20250615T090000\nUID:u1\nEND:VEVENT"⟩
      ⟨"Apple Calendar", "https://calendars.example/a.ics", Except.error "network down"⟩
      ⟨"UK Holidays", "https://calendars.example/h.ics",
        Except.ok "BEGIN:VEVENT\nSUMMARY:B\nDTSTART:20250616T090000\nUID:u2\nEND:VEVENT"⟩
      "BEGIN:VEVENT\nSUMMARY:A\nDTSTART:20250615T090000\nUID:u1\nEND:VEVENT"
      "BEGIN:VEVENT\nSUMMARY:B\nDTSTART:20250616T090000\nUID:u2\nEND:VEVENT"
      "network down" 0 "2026-01-01"
      (by decide) (by decide) (by decide) rfl rfl rfl).2.2
      (Except.ok "BEGIN:VEVENT\nSUMMARY:A\nDTSTART:20250615T090000\nUID:u1\nEND:VEVENT")
      (Except.error "network down")
      (Except.ok "BEGIN:VEVENT\nSUMMARY:B\nDTSTART:20250616T090000\nUID:u2\nEND:VEVENT")

/-- C7, claim as stated is false: after completing the shared fallback id
`"100"`, an aggregation over two UID-less events (both carrying id `"100"`
under clock reading 100) reports `total_events = 2` and
`filtered_events = 0`, yet only one id of the union is present among the
events, so the claimed identity would demand `filtered_events = 2 - 1`. -/
theorem counterexample_C7 :
    (Server.handleAppleCalendar
        [⟨"Apple Calendar", "https://example.com/cal.ics",
          Except.ok "BEGIN:VEVENT\nSUMMARY:Alpha\nDTSTART:20250615T090000\nEND:VEVENT\nBEGIN:VEVENT\nSUMMARY:Beta\nDTSTART:20250616T100000\nEND:VEVENT"⟩]
        (handleEventAction "POST" (some (some "100", some "complete")) [] []).2.1
        (handleEventAction "POST" (some (some "100", some "complete")) [] []).2.2
        100 "2026-01-01").total_events = 2 ∧
    (Server.handleAppleCalendar
        [⟨"Apple Calendar", "https://example.com/cal.ics",
          Except.ok "BEGIN:VEVENT\nSUMMARY:Alpha\nDTSTART:20250615T090000\nEND:VEVENT\nBEGIN:VEVENT\nSUMMARY:Beta\nDTSTART:20250616T100000\nEND:VEVENT"⟩]
        (handleEventAction "POST" (some (some "100", some "complete")) [] []).2.1
        (handleEventAction "POST" (some (some "100", some "complete")) [] []).2.2
        100 "2026-01-01").filtered_events = 0 ∧
    claimIdsPresentCount
        (handleEventAction "POST" (some (some "100", some "complete")) [] []).2.1
        (handleEventAction "POST" (some (some "100", some "complete")) [] []).2.2
        (Server.collectEvents
          [⟨"Apple Calendar", "https://example.com/cal.ics",
            Except.ok "BEGIN:VEVENT\nSUMMARY:Alpha\nDTSTART:20250615T090000\nEND:VEVENT\nBEGIN:VEVENT\nSUMMARY:Beta\nDTSTART:20250616T100000\nEND:VEVENT"⟩]
          100 "2026-01-01") = 1 ∧
    (0 : Nat) ≠ 2 - 1 := by decide

/-- C7, amended: after `recordAction(id, "complete")` every later
aggregation excludes every event carrying that id, and
`filtered_events = total_events` minus the number of *events* (not
distinct ids) whose id lies in the completed/dismissed union. -/
theorem claim_C7 (id : String) (sources : List CalSource)
    (completed dismissed : List String) (now : Nat) (today : String) (hid : id ≠ "") :
    (∀ e, e ∈ (Server.handleAppleCalendar sources
          (handleEventAction "POST" (some (some id, some "complete")) completed dismissed).2.1
          (handleEventAction "POST" (some (some id, some "complete")) completed dismissed).2.2
          now today).events → e.id ≠ id) ∧
    (∀ c d : List String,
        (Server.handleAppleCalendar sources c d now today).filtered_events
          = (Server.handleAppleCalendar sources c d now today).total_events
            - ((Server.collectEvents sources now today).filter
                (fun e => c.contains e.id || d.contains e.id)).length) := by
  constructor
  · have hstate : (handleEventAction "POST" (some (some id, some "complete"))
        completed dismissed).2 = (insertSet completed id, dismissed) := by
      simp [handleEventAction, hid]
    intro e he heq
    subst heq
    rw [hstate] at he
    have he' := List.mem_mergeSort.mp he
    have hpred := List.of_mem_filter he'
    simp only [Bool.and_eq_true, Bool.not_eq_true'] at hpred
    have hidmem : e.id ∈ insertSet completed e.id := by
      unfold insertSet
      by_cases hc : completed.contains e.id = true
      · rw [if_pos hc]
        simpa using hc
      · rw [if_neg hc]
        exact List.mem_append_right _ (List.mem_singleton_self e.id)
    exact absurd hidmem (by simpa using hpred.1)
  · intro c d
    show (List.filter _ (Server.collectEvents sources now today)).length
        = (Server.collectEvents sources now today).length - _
    have hsplit := List.length_eq_length_filter_add
      (l := Server.collectEvents sources now today)
      (fun e => c.contains e.id || d.contains e.id)
    have hcongr : (Server.collectEvents sources now today).filter
          (fun e => !(c.contains e.id || d.contains e.id))
        = (Server.collectEvents sources now today).filter
          (fun e => !(c.contains e.id) && !(d.contains e.id)) := by
      apply List.filter_congr
      intro a _
      rw [Bool.not_or]
    rw [hcongr] at hsplit
    omega

/-- C7 witness: the amended count identity applied to the duplicate-id
aggregation of the counterexample. -/
theorem claim_C7_witness :
    (Server.handleAppleCalendar
        [⟨"Apple Calendar", "https://example.com/cal.ics",
          Except.ok "BEGIN:VEVENT\nSUMMARY:Alpha\nDTSTART:20250615T090000\nEND:VEVENT\nBEGIN:VEVENT\nSUMMARY:Beta\nDTSTART:20250616T100000\nEND:VEVENT"⟩]
        ["100"] [] 100 "2026-01-01").filtered_events
      = (Server.handleAppleCalendar
          [⟨"Apple Calendar", "https://example.com/cal.ics",
            Except.ok "BEGIN:VEVENT\nSUMMARY:Alpha\nDTSTART:20250615T090000\nEND:VEVENT\nBEGIN:VEVENT\nSUMMARY:Beta\nDTSTART:20250616T100000\nEND:VEVENT"⟩]
          ["100"] [] 100 "2026-01-01").total_events
        - ((Server.collectEvents
            [⟨"Apple Calendar", "https://example.com/cal.ics",
              Except.ok "BEGIN:VEVENT\nSUMMARY:Alpha\nDTSTART:20250615T090000\nEND:VEVENT\nBEGIN:VEVENT\nSUMMARY:Beta\nDTSTART:20250616T100000\nEND:VEVENT"⟩]
            100 "2026-01-01").filter
            (fun e => (["100"] : List String).contains e.id
              || ([] : List String).contains e.id)).length :=
  (claim_C7 "100"
    [⟨"Apple Calendar", "https://example.com/cal.ics",
      Except.ok "BEGIN:VEVENT\nSUMMARY:Alpha\nDTSTART:20250615T090000\nEND:VEVENT\nBEGIN:VEVENT\nSUMMARY:Beta\nDTSTART:20250616T100000\nEND:VEVENT"⟩]
    [] [] 100 "2026-01-01" (by decide)).2 ["100"] []

end HomeDash
